import Mathlib

/-
  Verification development for the pywhisker delegation-rights tool
  (src/pywhisker.py).  The Python source is shallowly embedded: bytes are
  modelled as natural numbers below 256 inside lists, fallible code returns
  Except, and the LDAP collaborators are modelled at their interface
  boundary (a lookup function, and an attribute cell holding the decoded
  security descriptor).
-/

namespace Pywhisker

/-- Python exceptions observed in the embedded code paths.  truncated stands
for struct.error raised by struct.unpack on a short buffer, binasciiError for
binascii.Error, unicodeError for UnicodeDecodeError, indexError for
IndexError, attributeError for AttributeError, typeError for TypeError.
unsupportedVersion is never raised by the source; it is listed because the
spec taxonomy names it. -/
inductive PyError where
  | truncated
  | indexError
  | attributeError
  | typeError
  | binasciiError
  | unicodeError
  | unsupportedVersion
deriving DecidableEq, Repr

/-- struct.unpack of a little-endian 16-bit integer from a 2-byte slice. -/
def leU16 (bs : List Nat) : Nat :=
  bs.getD 0 0 + 256 * bs.getD 1 0

/-- struct.unpack of a big-endian 16-bit integer from a 2-byte slice. -/
def beU16 (bs : List Nat) : Nat :=
  256 * bs.getD 0 0 + bs.getD 1 0

/-- struct.unpack of a little-endian 32-bit integer from a 4-byte slice. -/
def leU32 (bs : List Nat) : Nat :=
  bs.getD 0 0 + 256 * (bs.getD 1 0 + 256 * (bs.getD 2 0 + 256 * bs.getD 3 0))

/-- struct.unpack of a little-endian 64-bit integer from an 8-byte slice. -/
def leU64 (bs : List Nat) : Nat :=
  bs.getD 0 0 + 256 * (bs.getD 1 0 + 256 * (bs.getD 2 0 + 256 * (bs.getD 3 0 +
    256 * (bs.getD 4 0 + 256 * (bs.getD 5 0 + 256 * (bs.getD 6 0 +
    256 * bs.getD 7 0))))))

/-- The Python expression hex(n) with the 0x stripped: lowercase hexadecimal
digits of n with no leading zeros, and the single digit 0 for n = 0.
Nat.toDigits 16 has exactly this behaviour. -/
def pyHex (n : Nat) : String :=
  String.mk (Nat.toDigits 16 n)

/-- The Python str.rjust method: left-pad with the fill character up to the
requested width, return the string unchanged when already at least that
wide. -/
def rjustStr (s : String) (width : Nat) (fill : Char) : String :=
  if width ≤ s.length then s
  else String.mk (List.replicate (width - s.length) fill) ++ s

/-- binascii.hexlify: two lowercase hexadecimal digits per byte. -/
def hexlify (bs : List Nat) : String :=
  String.join (bs.map (fun b => rjustStr (pyHex b) 2 '0'))

/-- Value of one ASCII hexadecimal digit, as binascii.unhexlify accepts
them: 0-9, a-f and A-F. -/
def hexCharVal (c : Nat) : Option Nat :=
  if 48 ≤ c ∧ c ≤ 57 then some (c - 48)
  else if 97 ≤ c ∧ c ≤ 102 then some (c - 87)
  else if 65 ≤ c ∧ c ≤ 70 then some (c - 55)
  else none

/-- binascii.unhexlify on a byte string: pairs of hexadecimal digits become
bytes; an odd-length input or a non-hexadecimal digit raises
binascii.Error. -/
def unhexlify : List Nat → Except PyError (List Nat)
  | [] => .ok []
  | [_] => .error .binasciiError
  | c1 :: c2 :: rest =>
    match hexCharVal c1, hexCharVal c2 with
    | some hi, some lo =>
      match unhexlify rest with
      | .error e => .error e
      | .ok bs => .ok ((16 * hi + lo) :: bs)
    | _, _ => .error .binasciiError

/-- Value of one character of the standard base64 alphabet. -/
def b64CharVal (c : Nat) : Option Nat :=
  if 65 ≤ c ∧ c ≤ 90 then some (c - 65)
  else if 97 ≤ c ∧ c ≤ 122 then some (c - 71)
  else if 48 ≤ c ∧ c ≤ 57 then some (c + 4)
  else if c = 43 then some 62
  else if c = 47 then some 63
  else none

/-- Decode base64 quadruples; byte 61 is the padding character.  A group
that is not a full quadruple, padding in a non-final position, or a stray
character raises binascii.Error, as base64.b64decode does. -/
def b64DecodeQuads : List Nat → Except PyError (List Nat)
  | [] => .ok []
  | a :: b :: c :: d :: rest =>
    match b64CharVal a, b64CharVal b with
    | some va, some vb =>
      if c = 61 then
        if d = 61 ∧ rest = [] then .ok [4 * va + vb / 16]
        else .error .binasciiError
      else
        match b64CharVal c with
        | some vc =>
          if d = 61 then
            if rest = [] then .ok [4 * va + vb / 16, 16 * (vb % 16) + vc / 4]
            else .error .binasciiError
          else
            match b64CharVal d with
            | some vd =>
              match b64DecodeQuads rest with
              | .error e => .error e
              | .ok bs =>
                .ok ((4 * va + vb / 16) :: (16 * (vb % 16) + vc / 4) ::
                     (64 * (vc % 4) + vd) :: bs)
            | none => .error .binasciiError
        | none => .error .binasciiError
    | _, _ => .error .binasciiError
  | _ => .error .binasciiError

/-- base64.b64decode with the default validate=False: characters outside the
alphabet and padding are discarded first, then quadruples are decoded. -/
def b64decode (s : List Nat) : Except PyError (List Nat) :=
  b64DecodeQuads (s.filter (fun c => (b64CharVal c).isSome || c == 61))

/-- ConvertToBinaryIdentifier from the source: versions 0 and 0x100 use
binascii.unhexlify, version 0x200 uses base64.b64decode, and the final else
branch applies base64.b64decode to every other version as well. -/
def ConvertToBinaryIdentifier (keyIdentifier : List Nat) (version : Nat) :
    Except PyError (List Nat) :=
  if version = 0 ∨ version = 256 then unhexlify keyIdentifier
  else if version = 512 then b64decode keyIdentifier
  else b64decode keyIdentifier

/-- Guid from the source.  Each struct.unpack call needs its exact slice, so
any input shorter than 10 bytes raises struct.error at the first short
unpack; the final group is binascii.hexlify of bytes 10 to 15.  Note the
rjust widths 4, 2, 2, 2 and 6 taken verbatim from the source. -/
def Guid (data : List Nat) : Except PyError String :=
  if data.length < 10 then .error .truncated
  else
    let a := rjustStr (pyHex (leU32 (data.take 4))) 4 '0'
    let b := rjustStr (pyHex (leU16 ((data.drop 4).take 2))) 2 '0'
    let c := rjustStr (pyHex (leU16 ((data.drop 6).take 2))) 2 '0'
    let d := rjustStr (pyHex (beU16 ((data.drop 8).take 2))) 2 '0'
    let e := rjustStr (hexlify ((data.drop 10).take 6)) 6 '0'
    .ok (a ++ "-" ++ b ++ "-" ++ c ++ "-" ++ d ++ "-" ++ e)

/-- ConvertFromBinaryTime from the source.  struct.unpack of a little-endian
64-bit integer requires exactly 8 bytes.  Every version and source branch
adds the same 100-nanosecond tick count to the same 1601-01-01 epoch, so the
result is modelled as the tick count itself; the branch structure of the
source is kept. -/
def ConvertFromBinaryTime (binaryTime : List Nat) (source : Nat)
    (version : Nat) : Except PyError Nat :=
  if binaryTime.length ≠ 8 then .error .truncated
  else
    let timeStamp := leU64 binaryTime
    if version = 0 then .ok timeStamp
    else if version = 256 then .ok timeStamp
    else if version = 512 then
      if source = 0 then .ok timeStamp else .ok timeStamp
    else
      if source = 0 then .ok timeStamp else .ok timeStamp

/-- Decoded CustomKeyInformation fields.  Absent optional fields are an
explicit none, mirroring the source assigning None. -/
structure CustomKeyInformation where
  Version : Nat
  Flags : Nat
  VolumeType : Option Nat
  SupportsNotification : Option Bool
  FekKeyVersion : Option Nat
  Strength : Option Nat
  Reserved : Option (List Nat)
  EncodedExtendedCKI : Option (List Nat)
deriving DecidableEq, Repr

/-- CustomKeyInformation.__init__ from the source.  Version and Flags are
mandatory single bytes (struct.error on a short stream).  Each optional
field reads one byte and is none once the stream is exhausted.  The reserved
step reads 10 bytes and, when that read is non-empty, calls bytes.rjust with
the two-character str fill written in the source as a quoted b followed by a
NUL escape; bytes.rjust rejects a str fill of length two with TypeError
before any padding happens, so every input of length at least 7 raises
TypeError here.  The version parameter is accepted and never used, as in the
source. -/
def CustomKeyInformation.init (keyMaterial : List Nat) (version : Nat) :
    Except PyError CustomKeyInformation :=
  match keyMaterial with
  | [] => .error .truncated
  | [_] => .error .truncated
  | v :: f :: rest =>
    let volumeType := rest.head?
    let r1 := rest.drop 1
    let supportsNotification := r1.head?.map (fun b => b != 0)
    let r2 := r1.drop 1
    let fekKeyVersion := r2.head?
    let r3 := r2.drop 1
    let strength := r3.head?
    let r4 := r3.drop 1
    let reservedBytes := r4.take 10
    if reservedBytes.length ≠ 0 then .error .typeError
    else
      let r5 := r4.drop 10
      let extended := if r5.length ≠ 0 then some r5 else none
      .ok { Version := v, Flags := f, VolumeType := volumeType,
            SupportsNotification := supportsNotification,
            FekKeyVersion := fekKeyVersion, Strength := strength,
            Reserved := none, EncodedExtendedCKI := extended }

/-- True when the byte is a UTF-8 continuation byte. -/
def isUtf8Cont (b : Nat) : Bool :=
  decide (128 ≤ b ∧ b ≤ 191)

/-- Validity of a byte sequence under the strict UTF-8 decoder that the
Python bytes.decode method applies: overlong encodings, surrogates and
values above U+10FFFF are rejected. -/
def isValidUtf8 : List Nat → Bool
  | [] => true
  | b :: rest =>
    if b ≤ 127 then isValidUtf8 rest
    else if 194 ≤ b ∧ b ≤ 223 then
      match rest with
      | c :: r => isUtf8Cont c && isValidUtf8 r
      | [] => false
    else if b = 224 then
      match rest with
      | c :: d :: r => decide (160 ≤ c ∧ c ≤ 191) && isUtf8Cont d && isValidUtf8 r
      | _ => false
    else if (225 ≤ b ∧ b ≤ 236) ∨ (b = 238 ∨ b = 239) then
      match rest with
      | c :: d :: r => isUtf8Cont c && isUtf8Cont d && isValidUtf8 r
      | _ => false
    else if b = 237 then
      match rest with
      | c :: d :: r => decide (128 ≤ c ∧ c ≤ 159) && isUtf8Cont d && isValidUtf8 r
      | _ => false
    else if b = 240 then
      match rest with
      | c :: d :: e :: r =>
        decide (144 ≤ c ∧ c ≤ 191) && isUtf8Cont d && isUtf8Cont e && isValidUtf8 r
      | _ => false
    else if 241 ≤ b ∧ b ≤ 243 then
      match rest with
      | c :: d :: e :: r =>
        isUtf8Cont c && isUtf8Cont d && isUtf8Cont e && isValidUtf8 r
      | _ => false
    else if b = 244 then
      match rest with
      | c :: d :: e :: r =>
        decide (128 ≤ c ∧ c ≤ 143) && isUtf8Cont d && isUtf8Cont e && isValidUtf8 r
      | _ => false
    else false

/-- The record-reading while loop of DN_binary_KeyCredentialLink.__init__.
stream.read(3) returns the empty byte string at end of stream, stopping the
loop; a 1-byte or 2-byte remainder is a non-empty short buffer on which
struct.unpack raises struct.error; otherwise the 16-bit little-endian length
and the 8-bit entry type are read, and stream.read(length) returns at most
length bytes, silently fewer when the stream runs out. -/
def readRecords : List Nat → Except PyError (List (Nat × List Nat))
  | [] => .ok []
  | b0 :: b1 :: b2 :: rest =>
    let length := b0 + 256 * b1
    match readRecords (rest.drop length) with
    | .error e => .error e
    | .ok rs => .ok ((b2, rest.take length) :: rs)
  | _ => .error .truncated
termination_by bs => bs.length
decreasing_by
  simp only [List.length_drop, List.length_cons]
  omega

/-- The parsed_data dictionary of DN_binary_KeyCredentialLink together with
the attributes the parse loop relies on: version is set before the loop, and
source models the self.source attribute, which exists only after a KeySource
record was processed (none stands for the attribute being unset). -/
structure KCState where
  version : Nat
  source : Option Nat
  keyID : Option (List Nat)
  keyMaterial : Option (List Nat)
  usage : Option Nat
  legacyUsage : Option (List Nat)
  keySource : Option Nat
  devideId : Option String
  customKeyInfo : Option CustomKeyInformation
  lastLogonTime : Option Nat
  creationTime : Option Nat
deriving DecidableEq, Repr

/-- State at the start of the parse loop: only version is set. -/
def KCState.init (version : Nat) : KCState :=
  { version := version, source := none, keyID := none, keyMaterial := none,
    usage := none, legacyUsage := none, keySource := none, devideId := none,
    customKeyInfo := none, lastLogonTime := none, creationTime := none }

/-- One iteration of the per-tag dispatch in
DN_binary_KeyCredentialLink.__init__.  Tag 2 (KeyHash) is accepted without
validation; tag 4 stores a single byte as Usage or, for any other length, the
UTF-8 decoded value as LegacyUsage; tag 5 reads value byte 0 (IndexError on
an empty value) and sets the source attribute; tags 8 and 9 evaluate
self.source before calling ConvertFromBinaryTime, raising AttributeError when
no KeySource record has been processed; unrecognized tags are ignored. -/
def parseRecord (st : KCState) (entryType : Nat) (value : List Nat) :
    Except PyError KCState :=
  if entryType = 1 then
    match ConvertToBinaryIdentifier value st.version with
    | .error e => .error e
    | .ok k => .ok { st with keyID := some k }
  else if entryType = 2 then .ok st
  else if entryType = 3 then .ok { st with keyMaterial := some value }
  else if entryType = 4 then
    if value.length = 1 then .ok { st with usage := some (value.headD 0) }
    else if isValidUtf8 value then .ok { st with legacyUsage := some value }
    else .error .unicodeError
  else if entryType = 5 then
    match value with
    | [] => .error .indexError
    | b :: _ => .ok { st with keySource := some b, source := some b }
  else if entryType = 6 then
    match Guid value with
    | .error e => .error e
    | .ok g => .ok { st with devideId := some g }
  else if entryType = 7 then
    match CustomKeyInformation.init value st.version with
    | .error e => .error e
    | .ok cki => .ok { st with customKeyInfo := some cki }
  else if entryType = 8 then
    match st.source with
    | none => .error .attributeError
    | some s =>
      match ConvertFromBinaryTime value s st.version with
      | .error e => .error e
      | .ok t => .ok { st with lastLogonTime := some t }
  else if entryType = 9 then
    match st.source with
    | none => .error .attributeError
    | some s =>
      match ConvertFromBinaryTime value s st.version with
      | .error e => .error e
      | .ok t => .ok { st with creationTime := some t }
  else .ok st

/-- The parse for-loop of DN_binary_KeyCredentialLink.__init__, processing
records in stream order; an exception aborts the loop. -/
def parseRecords (st : KCState) : List (Nat × List Nat) →
    Except PyError KCState
  | [] => .ok st
  | (ty, v) :: rest =>
    match parseRecord st ty v with
    | .error e => .error e
    | .ok st2 => parseRecords st2 rest

/-- DN_binary_KeyCredentialLink.__init__ on the hex-decoded binary blob
(the colon-separated outer wrapper is glue and already removed): a 4-byte
little-endian version, then the record loop, then the per-tag parse loop. -/
def DN_binary_KeyCredentialLink.init (binary_data : List Nat) :
    Except PyError KCState :=
  if binary_data.length < 4 then .error .truncated
  else
    let version := leU32 (binary_data.take 4)
    match readRecords (binary_data.drop 4) with
    | .error e => .error e
    | .ok records => parseRecords (KCState.init version) records

/-- An access-control entry as the code observes it.  Within the source a
SID stored in an ACE is only ever consumed through formatCanonical, so the
sid field holds the canonical dashed string directly. -/
structure ACE where
  aceType : Nat
  aceFlags : Nat
  mask : Nat
  sid : String
deriving DecidableEq, Repr

/-- The decoded security descriptor as the DACL edit engine sees it: the
impacket SR_SECURITY_DESCRIPTOR fields that the code reads or writes.  The
SACL, when present, is preserved as an opaque byte range. -/
structure SecurityDescriptor where
  revision : Nat
  control : Nat
  ownerSid : String
  groupSid : String
  dacl : List ACE
  sacl : Option (List Nat)
deriving DecidableEq, Repr

/-- Modelled from the spec: create_allow_ace is called at line 474 of the
source but not defined under src.  Per the spec it constructs one
access-allowed ACE (type 0) with a fixed default non-inherited flag and a
permissive access mask, carrying the given SID. -/
def create_allow_ace (sid : String) : ACE :=
  { aceType := 0, aceFlags := 0, mask := 983551, sid := sid }

/-- Modelled from the spec: create_empty_sd is called at line 593 of the
source but not defined under src.  Per the spec it synthesizes a minimal
valid self-relative descriptor with a default owner and group and an empty
DACL. -/
def create_empty_sd : SecurityDescriptor :=
  { revision := 1, control := 32772, ownerSid := "S-1-5-32-544",
    groupSid := "S-1-5-32-544", dacl := [], sacl := none }

/-- The list comprehension over sd.Dacl.aces applying formatCanonical to
each ACE SID, as built in ShadowCredentials.write line 473. -/
def daclSids (sd : SecurityDescriptor) : List String :=
  sd.dacl.map ACE.sid

/-- ShadowCredentials.write, lines 473 to 492, after name resolution: if the
canonical SID is not among the DACL SIDs, one allow ACE is appended and the
LDAP modify call is issued (Boolean true); otherwise the descriptor is left
alone and no write is issued. -/
def ShadowCredentials.write (sd : SecurityDescriptor) (sid : String) :
    SecurityDescriptor × Bool :=
  if sid ∉ daclSids sd then
    ({ sd with dacl := sd.dacl ++ [create_allow_ace sid] }, true)
  else (sd, false)

/-- ShadowCredentials.remove, lines 515 to 535: the DACL is filtered to drop
every ACE whose canonical SID equals the given one, and the LDAP modify call
is issued unconditionally. -/
def ShadowCredentials.remove (sd : SecurityDescriptor) (sid : String) :
    SecurityDescriptor × Bool :=
  ({ sd with dacl := sd.dacl.filter (fun ace => ace.sid ≠ sid) }, true)

/-- The directory attribute cell the manager mutates: none models the
attribute being absent from the directory object. -/
def DirAttr := Option SecurityDescriptor
deriving DecidableEq

/-- ShadowCredentials.flush, lines 537 to 562: the LDAP modify call replaces
the attribute with an empty value list, deleting it, and is issued
unconditionally; the fetched descriptor is discarded without being read. -/
def ShadowCredentials.flush (_attr : DirAttr) : DirAttr × Bool :=
  (none, true)

/-- The descriptor produced by ShadowCredentials.get_keycredentiallink,
lines 577 to 594: when the attribute is present its bytes are decoded, and
when it is absent the IndexError path yields create_empty_sd. -/
def get_keycredentiallink (attr : DirAttr) : SecurityDescriptor :=
  match attr with
  | some sd => sd
  | none => create_empty_sd

/-- Result of ShadowCredentials.get_sid_info, lines 606 to 614: a pair of
distinguished name and sAMAccountName on success, and the Python constant
False after logging when the search returns nothing. -/
inductive SidLookupResult where
  | found (dn : String) (samname : String)
  | notFound
deriving DecidableEq, Repr

/-- ShadowCredentials.get_sid_info against the directory-lookup
collaborator, modelled as a partial map from canonical SID to the pair of
distinguished name and sAMAccountName. -/
def get_sid_info (lookup : String → Option (String × String))
    (sid : String) : SidLookupResult :=
  match lookup sid with
  | some (dn, sam) => .found dn sam
  | none => .notFound

/-- The listing loop of get_keycredentiallink, lines 582 to 587, over a list
of ACEs: each iteration formats the SID canonically and evaluates
get_sid_info(...)[1].  When get_sid_info returned False, subscripting it
raises TypeError, aborting the loop. -/
def listActorsAux (lookup : String → Option (String × String)) :
    List ACE → Except PyError (List (String × String))
  | [] => .ok []
  | ace :: rest =>
    match get_sid_info lookup ace.sid with
    | .notFound => .error .typeError
    | .found _ sam =>
      match listActorsAux lookup rest with
      | .error e => .error e
      | .ok l => .ok ((ace.sid, sam) :: l)

/-- The listing the code logs for a descriptor: one pair of canonical SID
and resolved sAMAccountName per ACE of the DACL, in stored order, unless an
iteration raises. -/
def listActors (lookup : String → Option (String × String))
    (sd : SecurityDescriptor) : Except PyError (List (String × String)) :=
  listActorsAux lookup sd.dacl

/-- Concrete descriptor with a distinctive owner and group, used to observe
frame effects of the operations. -/
def sdOwnerX : SecurityDescriptor :=
  { revision := 1, control := 32772, ownerSid := "S-1-1-0",
    groupSid := "S-1-1-0", dacl := [], sacl := none }

/-- Concrete descriptor whose DACL holds a single allow ACE. -/
def sdOneAce : SecurityDescriptor :=
  { revision := 1, control := 32772, ownerSid := "S-1-5-32-544",
    groupSid := "S-1-5-32-544",
    dacl := [create_allow_ace "S-1-5-21-1-2-3-1000"], sacl := none }

/-- Concrete descriptor whose DACL holds two allow ACEs. -/
def sdTwoAces : SecurityDescriptor :=
  { revision := 1, control := 32772, ownerSid := "S-1-5-32-544",
    groupSid := "S-1-5-32-544",
    dacl := [create_allow_ace "S-1-5-21-1-2-3-1000",
             create_allow_ace "S-1-5-21-1-2-3-1104"], sacl := none }

/-- Directory in which no SID resolves. -/
def emptyLookup : String → Option (String × String) := fun _ => none

/-- Directory resolving the two SIDs of sdTwoAces. -/
def lookupTwo : String → Option (String × String) := fun s =>
  if s = "S-1-5-21-1-2-3-1000" then some ("CN=MachineA", "machineA")
  else if s = "S-1-5-21-1-2-3-1104" then some ("CN=MachineB", "machineB")
  else none

lemma filter_ne_of_not_mem (l : List ACE) (s : String)
    (h : s ∉ l.map ACE.sid) : l.filter (fun ace => ace.sid ≠ s) = l := by
  induction l with
  | nil => rfl
  | cons a t ih =>
    simp only [List.map_cons, List.mem_cons] at h
    push_neg at h
    rw [List.filter_cons]
    have ha : (decide (a.sid ≠ s)) = true := by
      simp [Ne.symm h.1]
    rw [if_pos ha, ih h.2]

/-- Claim C3: if no ACE of the DACL has canonical SID s, the add operation
appends exactly one access-allowed ACE for s at the end of the DACL and
issues a write; otherwise it returns the descriptor unchanged with no
write.  Consequently applying add twice with the same SID equals applying
it once. -/
theorem write_unique_append_idempotent (sd : SecurityDescriptor) (s : String) :
    (s ∉ daclSids sd →
      ShadowCredentials.write sd s =
        ({ sd with dacl := sd.dacl ++ [create_allow_ace s] }, true)) ∧
    (s ∈ daclSids sd → ShadowCredentials.write sd s = (sd, false)) ∧
    (ShadowCredentials.write (ShadowCredentials.write sd s).1 s).1 =
      (ShadowCredentials.write sd s).1 := by
  refine ⟨?_, ?_, ?_⟩
  · intro h
    simp [ShadowCredentials.write, h]
  · intro h
    simp [ShadowCredentials.write, h]
  · by_cases h : s ∈ daclSids sd
    · simp [ShadowCredentials.write, h]
    · simp only [ShadowCredentials.write, h, not_false_eq_true, if_pos]
      have hmem : s ∈ daclSids { sd with dacl := sd.dacl ++ [create_allow_ace s] } := by
        simp [daclSids, create_allow_ace]
      simp [hmem]

/-- Witness for claim C3 at a concrete descriptor and SID. -/
theorem write_unique_append_idempotent_witness :
    ShadowCredentials.write create_empty_sd "S-1-5-21-1-2-3-1104" =
      ({ create_empty_sd with
          dacl := create_empty_sd.dacl ++
            [create_allow_ace "S-1-5-21-1-2-3-1104"] }, true) ∧
    ShadowCredentials.write sdOneAce "S-1-5-21-1-2-3-1000" =
      (sdOneAce, false) :=
  ⟨(write_unique_append_idempotent create_empty_sd "S-1-5-21-1-2-3-1104").1
      (by decide),
   (write_unique_append_idempotent sdOneAce "S-1-5-21-1-2-3-1000").2.1
      (by decide)⟩

/-- Claim C4: when the directory attribute is absent the fetch step yields
the minimal empty descriptor instead of failing; its DACL is empty, and a
subsequent add operation appends its single ACE to it and issues a write. -/
theorem fetch_absent_yields_empty_descriptor (s : String) :
    get_keycredentiallink none = create_empty_sd ∧
    (get_keycredentiallink none).dacl = [] ∧
    (ShadowCredentials.write (get_keycredentiallink none) s).1.dacl =
      [create_allow_ace s] ∧
    (ShadowCredentials.write (get_keycredentiallink none) s).2 = true := by
  refine ⟨rfl, rfl, ?_, ?_⟩ <;>
    simp [get_keycredentiallink, ShadowCredentials.write, daclSids,
          create_empty_sd]

/-- Claim C2 counterexample: clearing does not preserve the owner field.
After a flush on an attribute holding a descriptor owned by S-1-1-0, the
descriptor observed by the next fetch carries the default owner of the
synthesized empty descriptor, not the previous owner. -/
theorem flush_does_not_preserve_owner :
    (get_keycredentiallink
        ((ShadowCredentials.flush (some sdOwnerX)).1)).ownerSid ≠
      sdOwnerX.ownerSid := by
  decide

/-- Claim C2 as amended: the clear operation issues a write that deletes
the attribute outright (replaces it with no values) rather than re-encoding
sd with an empty DACL; the descriptor observed after a clear is the default
empty descriptor, whose DACL is empty regardless of input but whose owner,
group and control are the defaults, not those of sd; clearing twice equals
clearing once. -/
theorem flush_deletes_attribute_and_is_absorbing (attr : DirAttr) :
    (ShadowCredentials.flush attr).1 = none ∧
    (ShadowCredentials.flush attr).2 = true ∧
    get_keycredentiallink (ShadowCredentials.flush attr).1 =
      create_empty_sd ∧
    (get_keycredentiallink (ShadowCredentials.flush attr).1).dacl = [] ∧
    ShadowCredentials.flush (ShadowCredentials.flush attr).1 =
      ShadowCredentials.flush attr :=
  ⟨rfl, rfl, rfl, rfl, rfl⟩

/-- Claim C6: formatting the 16 raw GUID bytes whose canonical rendering is
00112233-4455-6677-8899-aabbccddeeff.  The code produces the string with the
first group padded only to width 4, so the two leading zero digits of the
canonical rendering are missing: the output is
112233-4455-6677-8899-aabbccddeeff, not the canonical string the claim
demands. -/
theorem guid_drops_leading_zeros :
    Guid [51, 34, 17, 0, 85, 68, 119, 102, 136, 153,
          170, 187, 204, 221, 238, 255] =
      .ok "112233-4455-6677-8899-aabbccddeeff" ∧
    "112233-4455-6677-8899-aabbccddeeff" ≠
      "00112233-4455-6677-8899-aabbccddeeff" := by
  constructor
  · rfl
  · decide

/-- Claim C7: CustomKeyInfo decoding of a 7-byte input.  The claim says no
input of at least 2 bytes raises, but once the reserved-field read returns a
non-empty buffer the source calls bytes.rjust with an invalid str fill value
and TypeError is raised, so every input of length at least 7 fails; a
6-byte input still decodes with the optional tail fields absent. -/
theorem customkeyinfo_reserved_raises_typeerror :
    CustomKeyInformation.init [1, 0, 0, 0, 0, 0, 0] 0 =
      .error .typeError ∧
    CustomKeyInformation.init [1, 0] 0 =
      .ok { Version := 1, Flags := 0, VolumeType := none,
            SupportsNotification := none, FekKeyVersion := none,
            Strength := none, Reserved := none,
            EncodedExtendedCKI := none } ∧
    CustomKeyInformation.init [1, 0, 2, 1, 1, 3] 0 =
      .ok { Version := 1, Flags := 0, VolumeType := some 2,
            SupportsNotification := some true, FekKeyVersion := some 1,
            Strength := some 3, Reserved := none,
            EncodedExtendedCKI := none } :=
  ⟨rfl, rfl, rfl⟩

/-- Claim C1 counterexample: removing a SID that matches no ACE still
issues the directory write.  The remove operation returns the descriptor
unchanged, so the re-encoded bytes equal the fetched bytes, yet the write
flag is true. -/
theorem remove_unmatched_sid_still_writes :
    ShadowCredentials.remove sdOneAce "S-1-5-21-1-2-3-1104" =
      (sdOneAce, true) := by
  decide

/-- Claim C1 as amended: only the add operation skips the write, exactly
when the SID is already present in the DACL, in which case the descriptor
is returned unchanged (so the re-encoded bytes equal the fetched bytes);
the remove and clear operations issue the directory write unconditionally,
even when removing a SID that matches no ACE leaves the descriptor
unchanged. -/
theorem persist_skipped_only_by_write (sd : SecurityDescriptor) (s : String)
    (attr : DirAttr) :
    ((ShadowCredentials.write sd s).2 = false ↔ s ∈ daclSids sd) ∧
    ((ShadowCredentials.write sd s).2 = false →
      (ShadowCredentials.write sd s).1 = sd) ∧
    (ShadowCredentials.remove sd s).2 = true ∧
    (s ∉ daclSids sd → (ShadowCredentials.remove sd s).1 = sd) ∧
    (ShadowCredentials.flush attr).2 = true := by
  refine ⟨?_, ?_, rfl, ?_, rfl⟩
  · by_cases h : s ∈ daclSids sd <;> simp [ShadowCredentials.write, h]
  · intro h
    by_cases hm : s ∈ daclSids sd
    · simp [ShadowCredentials.write, hm]
    · simp [ShadowCredentials.write, hm] at h
  · intro h
    simp only [ShadowCredentials.remove]
    rw [filter_ne_of_not_mem sd.dacl s h]

/-- Witness for claim C1: the skip branch of add, and the no-op remove that
still reports a write. -/
theorem persist_skipped_only_by_write_witness :
    (ShadowCredentials.write sdOneAce "S-1-5-21-1-2-3-1000").1 = sdOneAce ∧
    (ShadowCredentials.remove sdOneAce "S-1-5-21-1-2-3-1104").1 = sdOneAce :=
  ⟨(persist_skipped_only_by_write sdOneAce "S-1-5-21-1-2-3-1000" none).2.1
      (by decide),
   (persist_skipped_only_by_write sdOneAce "S-1-5-21-1-2-3-1104" none).2.2.2.1
      (by decide)⟩

lemma readRecords_nil : readRecords [] = .ok [] := by
  rw [readRecords.eq_def]

lemma readRecords_cons (b0 b1 b2 : Nat) (rest : List Nat) :
    readRecords (b0 :: b1 :: b2 :: rest) =
      (match readRecords (rest.drop (b0 + 256 * b1)) with
       | .error e => .error e
       | .ok rs => .ok ((b2, rest.take (b0 + 256 * b1)) :: rs)) := by
  rw [readRecords.eq_def]

lemma readRecords_one (b0 : Nat) : readRecords [b0] = .error .truncated := by
  rw [readRecords.eq_def]

lemma readRecords_two (b0 b1 : Nat) :
    readRecords [b0, b1] = .error .truncated := by
  rw [readRecords.eq_def]

/-- Claim C5 counterexample: a record header declaring length 5 with only 2
value bytes remaining does not fail: stream.read returns the 2 available
bytes and decoding completes successfully. -/
theorem readRecords_short_value_not_truncated :
    readRecords [5, 0, 3, 171, 205] = .ok [(3, [171, 205])] := by
  rw [readRecords_cons]
  have h1 : List.drop (5 + 256 * 0) [(171 : Nat), 205] = [] := rfl
  have h2 : List.take (5 + 256 * 0) [(171 : Nat), 205] = [171, 205] := rfl
  rw [h1, h2, readRecords_nil]

/-- Claim C5 as amended: TLV decoding stops when no header bytes remain and
fails with the truncation error when only 1 or 2 header bytes remain, but a
header declaring a value length larger than the number of trailing bytes
does not fail: the value is silently truncated to the remaining bytes and
decoding completes. -/
theorem readRecords_header_truncation :
    (readRecords [] = .ok []) ∧
    (∀ b0 : Nat, readRecords [b0] = .error .truncated) ∧
    (∀ b0 b1 : Nat, readRecords [b0, b1] = .error .truncated) ∧
    (∀ (b0 b1 ty : Nat) (rest : List Nat), rest.length < b0 + 256 * b1 →
      readRecords (b0 :: b1 :: ty :: rest) = .ok [(ty, rest)]) := by
  refine ⟨readRecords_nil, readRecords_one, readRecords_two, ?_⟩
  intro b0 b1 ty rest h
  rw [readRecords_cons, List.drop_eq_nil_of_le (by omega), readRecords_nil,
      List.take_of_length_le (by omega)]

/-- Witness for claim C5 at a concrete truncated-value blob. -/
theorem readRecords_header_truncation_witness :
    readRecords [7, 0, 9] = .ok [(9, [])] :=
  readRecords_header_truncation.2.2.2 7 0 9 [] (by decide)

lemma listActorsAux_resolvable (lookup : String → Option (String × String)) :
    ∀ l : List ACE, (∀ ace ∈ l, (lookup ace.sid).isSome) →
      listActorsAux lookup l =
        .ok (l.map fun ace => (ace.sid, ((lookup ace.sid).getD ("", "")).2)) := by
  intro l
  induction l with
  | nil => intro _; rfl
  | cons a t ih =>
    intro h
    have ha : (lookup a.sid).isSome := h a (by simp)
    obtain ⟨⟨dn, sam⟩, hl⟩ := Option.isSome_iff_exists.mp ha
    have ht := ih (fun ace hm => h ace (by simp [hm]))
    simp [listActorsAux, get_sid_info, hl, ht]

lemma listActorsAux_unresolved (lookup : String → Option (String × String)) :
    ∀ l : List ACE, (∃ ace ∈ l, lookup ace.sid = none) →
      listActorsAux lookup l = .error .typeError := by
  intro l
  induction l with
  | nil => rintro ⟨_, h, _⟩; cases h
  | cons a t ih =>
    rintro ⟨ace, hm, hnone⟩
    cases hh : lookup a.sid with
    | none => simp [listActorsAux, get_sid_info, hh]
    | some p =>
      rcases List.mem_cons.mp hm with rfl | htail
      · rw [hh] at hnone
        cases hnone
      · obtain ⟨dn, sam⟩ := p
        simp [listActorsAux, get_sid_info, hh, ih ⟨ace, htail, hnone⟩]

/-- Claim C8 counterexample: when an ACE SID resolves to no directory
entry, the listing does not fall back to the canonical SID string: the
False returned by the lookup is subscripted and TypeError aborts the
listing. -/
theorem listActors_unresolved_sid_aborts :
    listActors emptyLookup sdOneAce = .error .typeError := rfl

/-- Claim C8 as amended: when every ACE SID resolves, listing produces one
pair of canonical SID and resolved name per ACE in stored order; a
resolution failure for any ACE SID raises TypeError and aborts the listing
instead of yielding the bare SID. -/
theorem listActors_in_stored_order (lookup : String → Option (String × String))
    (sd : SecurityDescriptor) :
    ((∀ ace ∈ sd.dacl, (lookup ace.sid).isSome) →
      listActors lookup sd =
        .ok (sd.dacl.map fun ace =>
              (ace.sid, ((lookup ace.sid).getD ("", "")).2))) ∧
    ((∃ ace ∈ sd.dacl, lookup ace.sid = none) →
      listActors lookup sd = .error .typeError) :=
  ⟨fun h => listActorsAux_resolvable lookup sd.dacl h,
   fun h => listActorsAux_unresolved lookup sd.dacl h⟩

/-- Witness for claim C8: both branches at concrete inputs, the fully
resolvable two-ACE descriptor listing in stored order, and the unresolvable
one aborting. -/
theorem listActors_in_stored_order_witness :
    listActors lookupTwo sdTwoAces =
      .ok [("S-1-5-21-1-2-3-1000", "machineA"),
           ("S-1-5-21-1-2-3-1104", "machineB")] ∧
    listActors emptyLookup sdTwoAces = .error .typeError :=
  ⟨((listActors_in_stored_order lookupTwo sdTwoAces).1 (by decide)).trans
      rfl,
   (listActors_in_stored_order emptyLookup sdTwoAces).2
      ⟨create_allow_ace "S-1-5-21-1-2-3-1000", by decide, rfl⟩⟩

lemma parseRecord_preserves_source (st : KCState) (ty : Nat) (v : List Nat)
    (st2 : KCState) (hty : ty ≠ 5) (h : parseRecord st ty v = .ok st2) :
    st2.source = st.source := by
  unfold parseRecord at h
  repeat' split at h
  all_goals try contradiction
  all_goals (injection h with h2; rw [← h2])

lemma parseRecord_timestamp_no_source (st : KCState) (ty : Nat)
    (v : List Nat) (hty : ty = 8 ∨ ty = 9) (hsrc : st.source = none) :
    parseRecord st ty v = .error .attributeError := by
  rcases hty with h | h <;> subst h <;> simp [parseRecord, hsrc]

/-- Claim C10: whenever a timestamp record (tag 8 or 9) occurs in the
record stream before any key-source record (tag 5), parsing fails: the
timestamp branch evaluates the source attribute, which only exists once a
key-source record has been processed, so AttributeError is raised there
unless an earlier record already raised something else. -/
theorem timestamp_before_source_fails (pre : List (Nat × List Nat))
    (ty : Nat) (v : List Nat) (post : List (Nat × List Nat)) (st : KCState)
    (hty : ty = 8 ∨ ty = 9) (hsrc : st.source = none)
    (hpre : ∀ p ∈ pre, p.1 ≠ 5) :
    ∃ e, parseRecords st (pre ++ (ty, v) :: post) = .error e := by
  induction pre generalizing st with
  | nil =>
    refine ⟨.attributeError, ?_⟩
    have hrec := parseRecord_timestamp_no_source st ty v hty hsrc
    simp [parseRecords, hrec]
  | cons p rest ih =>
    obtain ⟨a, b⟩ := p
    cases h : parseRecord st a b with
    | error e => exact ⟨e, by simp [parseRecords, h]⟩
    | ok st2 =>
      have hsrc2 : st2.source = none := by
        rw [parseRecord_preserves_source st a b st2 (hpre (a, b) (by simp)) h,
            hsrc]
      obtain ⟨e, he⟩ :=
        ih st2 hsrc2 (fun q hq => hpre q (List.mem_cons_of_mem _ hq))
      exact ⟨e, by simp [parseRecords, h, he]⟩

/-- Witness for claim C10: a stream whose single record is an
approximate-last-logon timestamp fails to parse. -/
theorem timestamp_before_source_fails_witness :
    ∃ e, parseRecords (KCState.init 0) [(8, [0, 0, 0, 0, 0, 0, 0, 0])] =
      .error e :=
  timestamp_before_source_fails [] 8 [0, 0, 0, 0, 0, 0, 0, 0] []
    (KCState.init 0) (Or.inl rfl) rfl (by simp)

lemma unhexlify_ne_unsupported (l : List Nat) :
    unhexlify l ≠ Except.error PyError.unsupportedVersion := by
  induction l using unhexlify.induct <;> simp_all [unhexlify]

lemma b64DecodeQuads_ne_unsupported (l : List Nat) :
    b64DecodeQuads l ≠ Except.error PyError.unsupportedVersion := by
  induction l using b64DecodeQuads.induct <;> simp_all [b64DecodeQuads] <;>
    split <;> simp

/-- Claim C9: identifier decoding is dispatched on the version alone: the
two legacy versions 0 and 0x100 use direct hexadecimal-to-binary
conversion, and every other version value, the current 0x200 and all
unknown future values alike, falls back to base64 decoding; no
unsupported-version error is ever raised. -/
theorem identifier_version_dispatch (version : Nat)
    (keyIdentifier : List Nat) :
    ConvertToBinaryIdentifier keyIdentifier version =
      (if version = 0 ∨ version = 256 then unhexlify keyIdentifier
       else b64decode keyIdentifier) ∧
    ConvertToBinaryIdentifier keyIdentifier version ≠
      Except.error PyError.unsupportedVersion := by
  constructor
  · unfold ConvertToBinaryIdentifier
    by_cases h : version = 0 ∨ version = 256
    · simp [h]
    · by_cases h512 : version = 512 <;> simp [h, h512]
  · unfold ConvertToBinaryIdentifier
    by_cases h : version = 0 ∨ version = 256
    · simpa [h] using unhexlify_ne_unsupported keyIdentifier
    · by_cases h512 : version = 512 <;>
        simpa [h, h512, b64decode] using
          b64DecodeQuads_ne_unsupported
            (keyIdentifier.filter fun c => (b64CharVal c).isSome || c == 61)

end Pywhisker
